import Mathlib

/-!
Verification of the polar backend core services against their
natural-language specification. Each service method used by the claims is
shallowly embedded as an executable Lean function translated from the
Python source (`polar/license_key/service.py`, `polar/checkout/service.py`,
`polar/webhook/service.py`); the order reconciler, whose source is not part
of the corpus, is modelled from the specification. Database sessions are
replaced by explicit state (lists of rows) and raised exceptions by
`Except` results; Python truthiness on optional integers is made explicit.
-/

/-! ## License key entitlement engine (from `polar/license_key/service.py`) -/

/-- Python truthiness of an optional integer: `None` and `0` are falsy. -/
def int_truthy : Option Int → Bool
  | none => false
  | some n => n != 0

/-- Python truthiness of an optional natural number: `None` and `0` are falsy. -/
def nat_truthy : Option Nat → Bool
  | none => false
  | some n => n != 0

/-- Modelled from the spec: the `LicenseKey` status enumeration
(`granted`/`revoked`/disabled); the model class is not under `src/`. -/
inductive LicenseKeyStatus
  | granted
  | revoked
  | disabled
deriving DecidableEq, Repr

/-- One seat/device binding of a license key (`LicenseKeyActivation` row).
`deleted` stands for a non-null `deleted_at` (soft deletion). -/
structure LicenseKeyActivation where
  id : Nat
  conditions : List (String × String)
  deleted : Bool
  label : String
  meta : List (String × String)
deriving DecidableEq, Repr

/-- A `LicenseKey` row. Timestamps are integers; `expires_at = none` means no
expiry. `limit_usage` mirrors the Python optional int; `limit_activations`
is an optional count. -/
structure LicenseKey where
  status : LicenseKeyStatus
  expires_at : Option Int
  usage : Int
  limit_usage : Option Int
  limit_activations : Option Nat
  benefit_id : Nat
  user_id : Nat
  last_validated_at : Option Int
deriving DecidableEq, Repr

/-- Modelled from the spec: a key in non-active status rejects all
validation; `granted` is the active status (`LicenseKey.is_active` lives in
the model class, not under `src/`). -/
def LicenseKey.is_active (k : LicenseKey) : Bool :=
  k.status == .granted

/-- Modelled from the spec: `mark_validated` atomically marks the key
validated and applies the usage increment (model class not under `src/`). -/
def LicenseKey.mark_validated (k : LicenseKey) (now : Int)
    (increment_usage : Option Int) : LicenseKey :=
  { k with last_validated_at := some now,
           usage := k.usage + increment_usage.getD 0 }

/-- The request body of a validate call (`LicenseKeyValidate`). -/
structure LicenseKeyValidate where
  activation_id : Option Nat
  conditions : List (String × String)
  benefit_id : Option Nat
  user_id : Option Nat
  increment_usage : Option Int
deriving DecidableEq, Repr

/-- The request body of an activate call (`LicenseKeyActivate`). -/
structure LicenseKeyActivate where
  label : String
  conditions : List (String × String)
  meta : List (String × String)
deriving DecidableEq, Repr

/-- Errors raised by the license key service. `BadRequest` carries the
remaining usage budget reported in the message
(`License key only has ... more usages.`). -/
inductive LKError
  | ResourceNotFound (message : String)
  | BadRequest (remaining : Int)
  | NotPermitted (message : String)
deriving DecidableEq, Repr

/-- `LicenseKeyService.get_activation_or_raise`: an activation is looked up
by id among the key's non-deleted activations; a miss raises
`ResourceNotFound`. -/
def LicenseKeyService.get_activation_or_raise
    (activations : List LicenseKeyActivation) (activation_id : Nat) :
    Except LKError LicenseKeyActivation :=
  match activations.find? (fun a => a.id == activation_id && !a.deleted) with
  | none => .error (.ResourceNotFound "Activation not found")
  | some a => .ok a

/-- `LicenseKeyService.validate`, translated check-for-check from the
source. `now` stands for `utc_now()`; `activations` is the key's activation
table. Raising an exception is returning `.error` and leaves every row
unchanged. The guard
`if validate.increment_usage and license_key.limit_usage` uses Python
truthiness, hence `int_truthy`. -/
def LicenseKeyService.validate (now : Int)
    (activations : List LicenseKeyActivation) (license_key : LicenseKey)
    (v : LicenseKeyValidate) :
    Except LKError (LicenseKey × Option LicenseKeyActivation) :=
  if !license_key.is_active then
    .error (.ResourceNotFound "License key is no longer active.")
  else if (match license_key.expires_at with
           | some e => decide (e ≤ now)
           | none => false) then
    .error (.ResourceNotFound "License key has expired.")
  else
    let activation? : Except LKError (Option LicenseKeyActivation) :=
      match v.activation_id with
      | none => .ok none
      | some aid =>
        match LicenseKeyService.get_activation_or_raise activations aid with
        | .error e => .error e
        | .ok a =>
          if decide (a.conditions ≠ []) && decide (v.conditions ≠ a.conditions) then
            .error (.ResourceNotFound "License key does not match required conditions")
          else .ok (some a)
    match activation? with
    | .error e => .error e
    | .ok activation =>
      if v.benefit_id.any (fun b => b != license_key.benefit_id) then
        .error (.ResourceNotFound "License key does not match given benefit.")
      else if v.user_id.any (fun u => u != license_key.user_id) then
        .error (.ResourceNotFound "License key does not match given user.")
      else
        let remaining := license_key.limit_usage.getD 0 - license_key.usage
        if int_truthy v.increment_usage && int_truthy license_key.limit_usage
            && decide (remaining < v.increment_usage.getD 0) then
          .error (.BadRequest remaining)
        else
          .ok (license_key.mark_validated now v.increment_usage, activation)

/-- `LicenseKeyService.get_activation_count`: count of non-deleted
activation rows of the key. -/
def LicenseKeyService.get_activation_count
    (activations : List LicenseKeyActivation) : Nat :=
  (activations.filter (fun a => !a.deleted)).length

/-- `LicenseKeyService.activate`: refuse when no activation limit is
configured (Python truthiness: `None` or `0`), refuse when the count of
non-deleted activations has reached the limit, otherwise insert one new
activation row. `new_id` stands for the database-assigned primary key. -/
def LicenseKeyService.activate (license_key : LicenseKey)
    (activations : List LicenseKeyActivation) (a : LicenseKeyActivate)
    (new_id : Nat) :
    Except LKError (List LicenseKeyActivation × LicenseKeyActivation) :=
  if !nat_truthy license_key.limit_activations then
    .error (.NotPermitted "License key does not require activation")
  else
    let current_activation_count :=
      LicenseKeyService.get_activation_count activations
    if license_key.limit_activations.getD 0 ≤ current_activation_count then
      .error (.NotPermitted "License key activation limit already reached")
    else
      let inst : LicenseKeyActivation :=
        { id := new_id, conditions := a.conditions, deleted := false,
          label := a.label, meta := a.meta }
      .ok (activations ++ [inst], inst)

/-- Soft-delete the activation row matched by
`get_activation_or_raise` (primary-key lookup: the first non-deleted row
with the given id). -/
def mark_activation_deleted :
    List LicenseKeyActivation → Nat → List LicenseKeyActivation
  | [], _ => []
  | a :: rest, aid =>
    if a.id == aid && !a.deleted then { a with deleted := true } :: rest
    else a :: mark_activation_deleted rest aid

/-- `LicenseKeyService.deactivate`: look up the activation
(`ResourceNotFound` on a miss), then soft-delete it. -/
def LicenseKeyService.deactivate (activations : List LicenseKeyActivation)
    (activation_id : Nat) : Except LKError (List LicenseKeyActivation) :=
  match LicenseKeyService.get_activation_or_raise activations activation_id with
  | .error e => .error e
  | .ok _ => .ok (mark_activation_deleted activations activation_id)

/-- Claim C4: for a license key with configured usage limit `L` (a
configured limit is a positive integer) and current usage `U`, a validate
call requesting a usage increment `n ≥ 1` succeeds exactly when
`n ≤ L - U`; on success usage becomes `U + n` and the key is marked
validated, on failure a bad-request error carrying the remaining count
`L - U` is raised and, the call being an exception, no row is mutated. -/
theorem license_key_validate_usage (now L U n : Int) (k : LicenseKey)
    (hact : k.status = .granted) (hexp : k.expires_at = none)
    (hlim : k.limit_usage = some L) (husage : k.usage = U)
    (hL : 1 ≤ L) (hn : 1 ≤ n) :
    (n ≤ L - U →
      LicenseKeyService.validate now [] k ⟨none, [], none, none, some n⟩ =
        .ok ({ k with last_validated_at := some now, usage := U + n }, none)) ∧
    (L - U < n →
      LicenseKeyService.validate now [] k ⟨none, [], none, none, some n⟩ =
        .error (.BadRequest (L - U))) := by
  have hn0 : (n != 0) = true := by simp; omega
  have hL0 : (L != 0) = true := by simp; omega
  constructor
  · intro hle
    have hcmp : ¬ (L - U < n) := by omega
    simp [LicenseKeyService.validate, LicenseKey.is_active, hact, hexp, hlim,
      husage, LicenseKey.mark_validated, int_truthy, hn0, hL0, hcmp]
  · intro hgt
    simp [LicenseKeyService.validate, LicenseKey.is_active, hact, hexp, hlim,
      husage, LicenseKey.mark_validated, int_truthy, hn0, hL0, hgt]

/-- Claim C4 witness: a key with limit 5 and usage 2 accepts an increment
of 3 (usage becomes 5, key marked validated) and rejects an increment of
4 with a bad request carrying the remaining count 3. -/
theorem license_key_validate_usage_witness :
    LicenseKeyService.validate 100 []
        ⟨.granted, none, 2, some 5, none, 7, 8, none⟩
        ⟨none, [], none, none, some 3⟩ =
      .ok (⟨.granted, none, 5, some 5, none, 7, 8, some 100⟩, none) ∧
    LicenseKeyService.validate 100 []
        ⟨.granted, none, 2, some 5, none, 7, 8, none⟩
        ⟨none, [], none, none, some 4⟩ =
      .error (.BadRequest 3) := by
  constructor
  · have h := (license_key_validate_usage 100 5 2 3
      ⟨.granted, none, 2, some 5, none, 7, 8, none⟩
      rfl rfl rfl rfl (by norm_num) (by norm_num)).1 (by norm_num)
    simpa using h
  · have h := (license_key_validate_usage 100 5 2 4
      ⟨.granted, none, 2, some 5, none, 7, 8, none⟩
      rfl rfl rfl rfl (by norm_num) (by norm_num)).2 (by norm_num)
    simpa using h

/-- Claim C10: for an active, non-expired license key with no usage limit
configured, a validate call passing the other checks never rejects on
usage grounds: any increment `n`, however large, succeeds and the usage
grows to `usage + n` without bound. -/
theorem license_key_validate_unlimited (now n : Int) (k : LicenseKey)
    (hact : k.status = .granted) (hexp : k.expires_at = none)
    (hlim : k.limit_usage = none) :
    LicenseKeyService.validate now [] k ⟨none, [], none, none, some n⟩ =
      .ok ({ k with last_validated_at := some now, usage := k.usage + n },
           none) := by
  simp [LicenseKeyService.validate, LicenseKey.is_active, hact, hexp, hlim,
    LicenseKey.mark_validated, int_truthy]

/-- Claim C10 witness: a key without usage limit accepts an increment of
one billion and its usage becomes one billion. -/
theorem license_key_validate_unlimited_witness :
    LicenseKeyService.validate 100 []
        ⟨.granted, none, 0, none, none, 7, 8, none⟩
        ⟨none, [], none, none, some 1000000000⟩ =
      .ok (⟨.granted, none, 1000000000, none, none, 7, 8, some 100⟩, none) := by
  have h := license_key_validate_unlimited 100 1000000000
    ⟨.granted, none, 0, none, none, 7, 8, none⟩ rfl rfl rfl
  simpa using h

/-- Appending a fresh (non-deleted) activation row raises the non-deleted
count by exactly one. -/
theorem get_activation_count_append (acts : List LicenseKeyActivation)
    (inst : LicenseKeyActivation) (h : inst.deleted = false) :
    LicenseKeyService.get_activation_count (acts ++ [inst]) =
      LicenseKeyService.get_activation_count acts + 1 := by
  simp [LicenseKeyService.get_activation_count, List.filter_append, h]

/-- Soft-deleting an existing non-deleted activation lowers the non-deleted
count by exactly one. -/
theorem get_activation_count_mark_deleted (acts : List LicenseKeyActivation)
    (aid : Nat) (h : ∃ x ∈ acts, x.id = aid ∧ x.deleted = false) :
    LicenseKeyService.get_activation_count (mark_activation_deleted acts aid)
        + 1 =
      LicenseKeyService.get_activation_count acts := by
  induction acts with
  | nil => simp at h
  | cons a rest ih =>
    cases hc : (a.id == aid && !a.deleted) with
    | true =>
      simp only [Bool.and_eq_true, beq_iff_eq, Bool.not_eq_true'] at hc
      simp [mark_activation_deleted, hc.1, hc.2,
        LicenseKeyService.get_activation_count]
    | false =>
      have h' : ∃ x ∈ rest, x.id = aid ∧ x.deleted = false := by
        rcases h with ⟨x, hx, hxid, hxdel⟩
        rcases List.mem_cons.mp hx with hxa | hxrest
        · subst hxa
          simp [hxid, hxdel] at hc
        · exact ⟨x, hxrest, hxid, hxdel⟩
      have hcount := ih h'
      have hmark : mark_activation_deleted (a :: rest) aid =
          a :: mark_activation_deleted rest aid := by
        simp [mark_activation_deleted, hc]
      rw [hmark]
      cases hadel : a.deleted with
      | true =>
        simp [LicenseKeyService.get_activation_count, hadel] at hcount ⊢
        omega
      | false =>
        simp [LicenseKeyService.get_activation_count, hadel] at hcount ⊢
        omega

/-- An existing non-deleted activation is found by the primary-key
lookup used by `deactivate`. -/
theorem find_activation_of_exists (acts : List LicenseKeyActivation)
    (aid : Nat) (h : ∃ x ∈ acts, x.id = aid ∧ x.deleted = false) :
    ∃ y, acts.find? (fun a => a.id == aid && !a.deleted) = some y := by
  have hs : (acts.find? (fun a => a.id == aid && !a.deleted)).isSome := by
    rw [List.find?_isSome]
    rcases h with ⟨x, hx, hxid, hxdel⟩
    exact ⟨x, hx, by simp [hxid, hxdel]⟩
  exact Option.isSome_iff_exists.mp hs

/-- Claim C5: activation fails with a permission error when no activation
limit is configured or when the count of non-deleted activations has
reached the configured limit `N`; otherwise exactly one new activation row
is inserted, so the non-deleted count never exceeds `N`; and after
soft-deleting one activation of a full key, exactly one more activation
succeeds (the one after it is refused again). -/
theorem license_key_activation_limit (k : LicenseKey)
    (acts : List LicenseKeyActivation) (a : LicenseKeyActivate)
    (nid : Nat) (N : Nat) (aid : Nat) :
    (k.limit_activations = none →
      LicenseKeyService.activate k acts a nid =
        .error (.NotPermitted "License key does not require activation")) ∧
    (k.limit_activations = some N → 1 ≤ N →
      N ≤ LicenseKeyService.get_activation_count acts →
      LicenseKeyService.activate k acts a nid =
        .error (.NotPermitted "License key activation limit already reached")) ∧
    (k.limit_activations = some N → 1 ≤ N →
      LicenseKeyService.get_activation_count acts < N →
      LicenseKeyService.activate k acts a nid =
        .ok (acts ++ [⟨nid, a.conditions, false, a.label, a.meta⟩],
             ⟨nid, a.conditions, false, a.label, a.meta⟩) ∧
      LicenseKeyService.get_activation_count
          (acts ++ [⟨nid, a.conditions, false, a.label, a.meta⟩]) =
        LicenseKeyService.get_activation_count acts + 1) ∧
    (k.limit_activations = some N → 1 ≤ N →
      LicenseKeyService.get_activation_count acts = N →
      (∃ x ∈ acts, x.id = aid ∧ x.deleted = false) →
      ∃ acts1,
        LicenseKeyService.deactivate acts aid = .ok acts1 ∧
        LicenseKeyService.get_activation_count acts1 + 1 = N ∧
        ∃ acts2 inst,
          LicenseKeyService.activate k acts1 a nid = .ok (acts2, inst) ∧
          LicenseKeyService.get_activation_count acts2 = N ∧
          LicenseKeyService.activate k acts2 a nid =
            .error (.NotPermitted "License key activation limit already reached")) := by
  refine ⟨?_, ?_, ?_, ?_⟩
  · intro h
    simp [LicenseKeyService.activate, nat_truthy, h]
  · intro h hN hge
    have hN0 : (N != 0) = true := by simp; omega
    simp [LicenseKeyService.activate, nat_truthy, h, hN0, hge]
  · intro h hN hlt
    have hN0 : (N != 0) = true := by simp; omega
    have hnle : ¬ (N ≤ LicenseKeyService.get_activation_count acts) :=
      Nat.not_le.mpr hlt
    constructor
    · simp [LicenseKeyService.activate, nat_truthy, h, hN0, hnle]
    · exact get_activation_count_append acts _ rfl
  · intro h hN hfull hex
    obtain ⟨y, hy⟩ := find_activation_of_exists acts aid hex
    refine ⟨mark_activation_deleted acts aid, ?_, ?_, ?_⟩
    · simp [LicenseKeyService.deactivate,
        LicenseKeyService.get_activation_or_raise, hy]
    · rw [get_activation_count_mark_deleted acts aid hex, hfull]
    · have hcount1 : LicenseKeyService.get_activation_count
          (mark_activation_deleted acts aid) + 1 = N := by
        rw [get_activation_count_mark_deleted acts aid hex, hfull]
      have hN0 : (N != 0) = true := by simp; omega
      have hnle : ¬ (N ≤ LicenseKeyService.get_activation_count
          (mark_activation_deleted acts aid)) := by omega
      refine ⟨mark_activation_deleted acts aid ++
          [⟨nid, a.conditions, false, a.label, a.meta⟩],
        ⟨nid, a.conditions, false, a.label, a.meta⟩, ?_, ?_, ?_⟩
      · simp [LicenseKeyService.activate, nat_truthy, h, hN0, hnle]
      · rw [get_activation_count_append _ _ rfl, hcount1]
      · have hcount2 : LicenseKeyService.get_activation_count
            (mark_activation_deleted acts aid ++
              [⟨nid, a.conditions, false, a.label, a.meta⟩]) = N := by
          rw [get_activation_count_append _ _ rfl, hcount1]
        have hge2 : N ≤ LicenseKeyService.get_activation_count
            (mark_activation_deleted acts aid ++
              [⟨nid, a.conditions, false, a.label, a.meta⟩]) := by omega
        simp [LicenseKeyService.activate, nat_truthy, h, hN0, hge2]

/-- Claim C5 witness: a key with activation limit 2 and two live
activations refuses a third; after deactivating activation 1, one more
activation succeeds and the next refusal returns; a key without a limit is
refused outright. -/
theorem license_key_activation_limit_witness :
    (LicenseKeyService.activate
        ⟨.granted, none, 0, none, none, 7, 8, none⟩
        [⟨1, [], false, "a", []⟩, ⟨2, [], false, "b", []⟩]
        ⟨"c", [], []⟩ 3 =
      .error (.NotPermitted "License key does not require activation")) ∧
    (LicenseKeyService.activate
        ⟨.granted, none, 0, none, some 2, 7, 8, none⟩
        [⟨1, [], false, "a", []⟩, ⟨2, [], false, "b", []⟩]
        ⟨"c", [], []⟩ 3 =
      .error (.NotPermitted "License key activation limit already reached")) ∧
    (∃ acts1,
      LicenseKeyService.deactivate
          [⟨1, [], false, "a", []⟩, ⟨2, [], false, "b", []⟩] 1 = .ok acts1 ∧
      LicenseKeyService.get_activation_count acts1 + 1 = 2 ∧
      ∃ acts2 inst,
        LicenseKeyService.activate
            ⟨.granted, none, 0, none, some 2, 7, 8, none⟩ acts1
            ⟨"c", [], []⟩ 3 = .ok (acts2, inst) ∧
        LicenseKeyService.get_activation_count acts2 = 2 ∧
        LicenseKeyService.activate
            ⟨.granted, none, 0, none, some 2, 7, 8, none⟩ acts2
            ⟨"c", [], []⟩ 4 =
          .error (.NotPermitted "License key activation limit already reached")) := by
  refine ⟨?_, ?_, ?_⟩
  · exact (license_key_activation_limit
      ⟨.granted, none, 0, none, none, 7, 8, none⟩
      [⟨1, [], false, "a", []⟩, ⟨2, [], false, "b", []⟩]
      ⟨"c", [], []⟩ 3 2 1).1 rfl
  · exact (license_key_activation_limit
      ⟨.granted, none, 0, none, some 2, 7, 8, none⟩
      [⟨1, [], false, "a", []⟩, ⟨2, [], false, "b", []⟩]
      ⟨"c", [], []⟩ 3 2 1).2.1 rfl (by norm_num) (by decide)
  · have h := (license_key_activation_limit
      ⟨.granted, none, 0, none, some 2, 7, 8, none⟩
      [⟨1, [], false, "a", []⟩, ⟨2, [], false, "b", []⟩]
      ⟨"c", [], []⟩ 3 2 1).2.2.2 rfl (by norm_num) (by decide)
      ⟨⟨1, [], false, "a", []⟩, by decide, rfl, rfl⟩
    rcases h with ⟨acts1, h1, h2, acts2, inst, h3, h4, h5⟩
    refine ⟨acts1, h1, h2, acts2, inst, h3, h4, ?_⟩
    have : LicenseKeyService.activate
        ⟨.granted, none, 0, none, some 2, 7, 8, none⟩ acts2
        ⟨"c", [], []⟩ 4 =
        LicenseKeyService.activate
        ⟨.granted, none, 0, none, some 2, 7, 8, none⟩ acts2
        ⟨"c", [], []⟩ 3 := by
      have hge2 : 2 ≤ LicenseKeyService.get_activation_count acts2 := by omega
      have hN0 : ((2 : Nat) != 0) = true := by decide
      simp [LicenseKeyService.activate, nat_truthy, hN0, hge2]
    rw [this]
    exact h5

/-! ## Checkout state machine (from `polar/checkout/service.py`) -/

/-- A customer billing address (only the country matters to the claims). -/
structure Address where
  country : String
deriving DecidableEq, Repr

/-- The three price types of the product model: fixed (processor-set amount
and currency), custom (pay-what-you-want, currency only) and free. -/
inductive PriceKind
  | fixed (price_amount : Int) (price_currency : String)
  | custom (price_currency : String)
  | free
deriving DecidableEq, Repr

/-- Whether a price is a `ProductPriceCustom`. -/
def PriceKind.is_custom : PriceKind → Bool
  | .custom _ => true
  | _ => false

/-- A product price row. `organization_id` stands for
`price.product.organization_id`. -/
structure ProductPrice where
  id : Nat
  product_id : Nat
  organization_id : Nat
  is_archived : Bool
  is_recurring : Bool
  stripe_price_id : String
  kind : PriceKind
deriving DecidableEq, Repr

/-- `CheckoutStatus`: `open` is initial, `confirmed` intermediate,
`succeeded`/`expired`/`failed` terminal. -/
inductive CheckoutStatus
  | open_
  | confirmed
  | succeeded
  | expired
  | failed
deriving DecidableEq, Repr

/-- A checkout session row. `product_organization_id` stands for
`checkout.product.organization_id`. -/
structure Checkout where
  id : Nat
  status : CheckoutStatus
  client_secret : String
  amount : Option Int
  currency : Option String
  product_id : Nat
  product_organization_id : Nat
  product_price : ProductPrice
  customer_name : Option String
  customer_email : Option String
  customer_billing_address : Option Address
  user_metadata : List (String × String)
deriving DecidableEq, Repr

/-- One entry of a `PolarRequestValidationError`: the `loc` field name and
the message. -/
structure ValidationErr where
  loc : String
  msg : String
deriving DecidableEq, Repr

/-- The body of a `CheckoutUpdate` / `CheckoutUpdatePublic` request;
`is_public = true` is the narrower public variant (`CheckoutUpdatePublic`),
which has no `metadata` field, so `metadata` is applied only when
`is_public = false` (the `isinstance(checkout_update, CheckoutUpdate)`
test in the source). `CheckoutConfirm` extends the public variant. -/
structure CheckoutUpdateReq where
  is_public : Bool
  product_price_id : Option Nat
  amount : Option Int
  customer_billing_address : Option Address
  metadata : Option (List (String × String))
  customer_name : Option String
  customer_email : Option String
deriving DecidableEq, Repr

/-- The trailing `setattr` loop of `CheckoutService.update`: billing
address, metadata (non-public variant only) and the remaining plain
fields (customer name, customer email). -/
def CheckoutService.update_fields (checkout : Checkout)
    (u : CheckoutUpdateReq) : Checkout :=
  let checkout :=
    match u.customer_billing_address with
    | some addr => { checkout with customer_billing_address := some addr }
    | none => checkout
  let checkout :=
    if !u.is_public then
      match u.metadata with
      | some m => { checkout with user_metadata := m }
      | none => checkout
    else checkout
  let checkout :=
    match u.customer_name with
    | some n => { checkout with customer_name := some n }
    | none => checkout
  match u.customer_email with
  | some m => { checkout with customer_email := some m }
  | none => checkout

/-- The explicit-amount step of `CheckoutService.update`: an amount may
only be set when the (possibly freshly swapped) price is a custom price. -/
def CheckoutService.update_amount (checkout : Checkout)
    (u : CheckoutUpdateReq) : Except (List ValidationErr) Checkout :=
  match u.amount with
  | some a =>
    if checkout.product_price.kind.is_custom then
      .ok (CheckoutService.update_fields { checkout with amount := some a } u)
    else
      .error [⟨"amount", "Amount can only be set on custom prices."⟩]
  | none => .ok (CheckoutService.update_fields checkout u)

/-- `CheckoutService.update`, translated check-for-check from the source:
on a price swap, the new price must exist, belong to the same organization,
not be archived, and belong to the same product — in both the ordinary and
the public variant; amount/currency are then recomputed from the new
price's type. Note the source never inspects `checkout.status` here. -/
def CheckoutService.update (prices : List ProductPrice) (checkout : Checkout)
    (u : CheckoutUpdateReq) : Except (List ValidationErr) Checkout :=
  match u.product_price_id with
  | some pid =>
    match prices.find? (fun p => p.id == pid) with
    | none => .error [⟨"product_price_id", "Price does not exist."⟩]
    | some price =>
      if price.organization_id != checkout.product_organization_id then
        .error [⟨"product_price_id", "Price does not exist."⟩]
      else if price.is_archived then
        .error [⟨"product_price_id", "Price is archived."⟩]
      else if price.product_id != checkout.product_id then
        .error [⟨"product_price_id", "Price does not belong to the product."⟩]
      else
        let checkout := { checkout with product_price := price }
        let checkout :=
          match price.kind with
          | .fixed pa pc =>
            { checkout with amount := some pa, currency := some pc }
          | .custom pc => { checkout with currency := some pc }
          | .free => { checkout with amount := none, currency := none }
        CheckoutService.update_amount checkout u
  | none => CheckoutService.update_amount checkout u

/-- The missing-required-field collection of `CheckoutService.confirm`, in
source order: amount for custom prices, then customer name, email and
billing address. -/
def CheckoutService.confirm_errors (c : Checkout) : List ValidationErr :=
  (if c.amount.isNone && c.product_price.kind.is_custom then
    [⟨"amount", "Amount is required for custom prices."⟩]
  else []) ++
  (if c.customer_name.isNone then
    [⟨"customer_name", "Field is required."⟩]
  else []) ++
  (if c.customer_email.isNone then
    [⟨"customer_email", "Field is required."⟩]
  else []) ++
  (if c.customer_billing_address.isNone then
    [⟨"customer_billing_address", "Field is required."⟩]
  else [])

/-- `CheckoutService.confirm`: apply the trailing update, collect all
missing-required-field violations into one error, and transition to
`confirmed` when none is missing (the processor-side customer and setup
intent creation is an external call and is not modelled). -/
def CheckoutService.confirm (prices : List ProductPrice) (checkout : Checkout)
    (u : CheckoutUpdateReq) : Except (List ValidationErr) Checkout :=
  match CheckoutService.update prices checkout u with
  | .error e => .error e
  | .ok checkout =>
    match CheckoutService.confirm_errors checkout with
    | [] => .ok { checkout with status := .confirmed }
    | e => .error e

/-- A Stripe setup intent, reduced to the fields the service reads. -/
structure SetupIntent where
  id : String
  status : String
  customer : Option String
  payment_method : Option String
deriving DecidableEq, Repr

/-- The fatal checkout state errors of `handle_stripe_success`. -/
inductive CheckoutStateError
  | NotConfirmedCheckout (status : CheckoutStatus)
  | SetupIntentNotSucceeded (setup_intent_id : String)
  | NoCustomerOnSetupIntent (setup_intent_id : String)
  | NoPaymentMethodOnSetupIntent (setup_intent_id : String)
deriving DecidableEq, Repr

/-- The processor-side subscription-or-invoice creation call issued by
`handle_stripe_success`, with its deterministic idempotency key. -/
structure ProcessorCall where
  is_subscription : Bool
  customer : String
  payment_method : String
  stripe_price_id : String
  idempotency_key : String
deriving DecidableEq, Repr

/-- `CheckoutService.handle_stripe_success`, translated check-for-check:
a checkout not in `confirmed` status raises `NotConfirmedCheckout` before
any processor call; the success path issues exactly one processor call and
transitions the checkout to `succeeded`. The returned list holds the
processor calls made; an error return made none. -/
def CheckoutService.handle_stripe_success (checkout : Checkout)
    (setup_intent : SetupIntent) :
    Except CheckoutStateError (Checkout × List ProcessorCall) :=
  if checkout.status != .confirmed then
    .error (.NotConfirmedCheckout checkout.status)
  else if setup_intent.status != "succeeded" then
    .error (.SetupIntentNotSucceeded setup_intent.id)
  else
    match setup_intent.customer with
    | none => .error (.NoCustomerOnSetupIntent setup_intent.id)
    | some cust =>
      match setup_intent.payment_method with
      | none => .error (.NoPaymentMethodOnSetupIntent setup_intent.id)
      | some pm =>
        let call : ProcessorCall :=
          { is_subscription := checkout.product_price.is_recurring,
            customer := cust,
            payment_method := pm,
            stripe_price_id := checkout.product_price.stripe_price_id,
            idempotency_key := "checkout_" ++ toString checkout.id }
        .ok ({ checkout with status := .succeeded }, [call])

/-- Claim C3: a checkout whose status is not `confirmed` (a terminal
`succeeded` included, i.e. a duplicate success callback) makes
`handle_stripe_success` raise `NotConfirmedCheckout` with no processor
call and no state change; a `confirmed` checkout with a succeeded setup
intent carrying a customer and a payment method transitions to
`succeeded` with exactly one processor call. -/
theorem checkout_handle_stripe_success_state (checkout : Checkout)
    (si : SetupIntent) :
    (checkout.status ≠ .confirmed →
      CheckoutService.handle_stripe_success checkout si =
        .error (.NotConfirmedCheckout checkout.status)) ∧
    (checkout.status = .confirmed → si.status = "succeeded" →
      ∀ cust pm, si.customer = some cust → si.payment_method = some pm →
        CheckoutService.handle_stripe_success checkout si =
          .ok ({ checkout with status := .succeeded },
               [{ is_subscription := checkout.product_price.is_recurring,
                  customer := cust,
                  payment_method := pm,
                  stripe_price_id := checkout.product_price.stripe_price_id,
                  idempotency_key := "checkout_" ++ toString checkout.id }])) := by
  constructor
  · intro h
    simp [CheckoutService.handle_stripe_success, h]
  · intro hst hsi cust pm hcust hpm
    simp [CheckoutService.handle_stripe_success, hst, hsi, hcust, hpm]

/-- Claim C3 witness: a checkout already in status `succeeded` receiving a
second success callback raises `NotConfirmedCheckout`; the same checkout
in status `confirmed` with a complete succeeded setup intent transitions
to `succeeded`. -/
theorem checkout_handle_stripe_success_state_witness :
    CheckoutService.handle_stripe_success
        ⟨1, .succeeded, "cs", some 1000, some "usd", 1, 10,
          ⟨1, 1, 10, false, true, "price_1", .fixed 1000 "usd"⟩,
          none, none, none, []⟩
        ⟨"si_1", "succeeded", some "cus_1", some "pm_1"⟩ =
      .error (.NotConfirmedCheckout .succeeded) ∧
    CheckoutService.handle_stripe_success
        ⟨1, .confirmed, "cs", some 1000, some "usd", 1, 10,
          ⟨1, 1, 10, false, true, "price_1", .fixed 1000 "usd"⟩,
          none, none, none, []⟩
        ⟨"si_1", "succeeded", some "cus_1", some "pm_1"⟩ =
      .ok (⟨1, .succeeded, "cs", some 1000, some "usd", 1, 10,
             ⟨1, 1, 10, false, true, "price_1", .fixed 1000 "usd"⟩,
             none, none, none, []⟩,
           [⟨true, "cus_1", "pm_1", "price_1", "checkout_1"⟩]) := by
  constructor
  · exact (checkout_handle_stripe_success_state
      ⟨1, .succeeded, "cs", some 1000, some "usd", 1, 10,
        ⟨1, 1, 10, false, true, "price_1", .fixed 1000 "usd"⟩,
        none, none, none, []⟩
      ⟨"si_1", "succeeded", some "cus_1", some "pm_1"⟩).1 (by decide)
  · have h := (checkout_handle_stripe_success_state
      ⟨1, .confirmed, "cs", some 1000, some "usd", 1, 10,
        ⟨1, 1, 10, false, true, "price_1", .fixed 1000 "usd"⟩,
        none, none, none, []⟩
      ⟨"si_1", "succeeded", some "cus_1", some "pm_1"⟩).2
      rfl rfl "cus_1" "pm_1" rfl rfl
    simpa using h

/-- Claim C6: once the trailing update has been applied, `confirm` collects
every missing-required-field violation (amount for custom prices, customer
name, customer email, customer billing address) and reports them together
in one validation error, and transitions the checkout to `confirmed`
exactly when none of those fields is missing. -/
theorem checkout_confirm_collects (prices : List ProductPrice) (c : Checkout)
    (u : CheckoutUpdateReq) (cu : Checkout)
    (h : CheckoutService.update prices c u = .ok cu) :
    (CheckoutService.confirm prices c u =
        .ok { cu with status := .confirmed } ↔
      CheckoutService.confirm_errors cu = []) ∧
    (CheckoutService.confirm_errors cu ≠ [] →
      CheckoutService.confirm prices c u =
        .error (CheckoutService.confirm_errors cu)) ∧
    (cu.amount = none → cu.product_price.kind.is_custom = true →
      (⟨"amount", "Amount is required for custom prices."⟩ : ValidationErr) ∈
        CheckoutService.confirm_errors cu) ∧
    (cu.customer_name = none →
      (⟨"customer_name", "Field is required."⟩ : ValidationErr) ∈
        CheckoutService.confirm_errors cu) ∧
    (cu.customer_email = none →
      (⟨"customer_email", "Field is required."⟩ : ValidationErr) ∈
        CheckoutService.confirm_errors cu) ∧
    (cu.customer_billing_address = none →
      (⟨"customer_billing_address", "Field is required."⟩ : ValidationErr) ∈
        CheckoutService.confirm_errors cu) := by
  refine ⟨?_, ?_, ?_, ?_, ?_, ?_⟩
  · cases he : CheckoutService.confirm_errors cu with
    | nil => simp [CheckoutService.confirm, h, he]
    | cons e es => simp [CheckoutService.confirm, h, he]
  · intro hne
    cases he : CheckoutService.confirm_errors cu with
    | nil => exact absurd he hne
    | cons e es => simp [CheckoutService.confirm, h, he]
  · intro ha hc
    simp [CheckoutService.confirm_errors, ha, hc]
  · intro hn
    simp [CheckoutService.confirm_errors, hn]
  · intro hm
    simp [CheckoutService.confirm_errors, hm]
  · intro hb
    simp [CheckoutService.confirm_errors, hb]

/-- Claim C6 witness: confirming a custom-price checkout with no amount,
no name, no email and no billing address reports all four violations in
one error; after an update supplying all four, confirm succeeds and the
status becomes `confirmed`. -/
theorem checkout_confirm_collects_witness :
    CheckoutService.confirm []
        ⟨1, .open_, "cs", none, some "usd", 1, 10,
          ⟨1, 1, 10, false, false, "price_1", .custom "usd"⟩,
          none, none, none, []⟩
        ⟨true, none, none, none, none, none, none⟩ =
      .error
        [⟨"amount", "Amount is required for custom prices."⟩,
         ⟨"customer_name", "Field is required."⟩,
         ⟨"customer_email", "Field is required."⟩,
         ⟨"customer_billing_address", "Field is required."⟩] ∧
    CheckoutService.confirm []
        ⟨1, .open_, "cs", none, some "usd", 1, 10,
          ⟨1, 1, 10, false, false, "price_1", .custom "usd"⟩,
          none, none, none, []⟩
        ⟨true, none, some 1500, some ⟨"FR"⟩, none, some "Jane", some "jane@x.io"⟩ =
      .ok ⟨1, .confirmed, "cs", some 1500, some "usd", 1, 10,
            ⟨1, 1, 10, false, false, "price_1", .custom "usd"⟩,
            some "Jane", some "jane@x.io", some ⟨"FR"⟩, []⟩ := by
  constructor
  · have h := (checkout_confirm_collects []
      ⟨1, .open_, "cs", none, some "usd", 1, 10,
        ⟨1, 1, 10, false, false, "price_1", .custom "usd"⟩,
        none, none, none, []⟩
      ⟨true, none, none, none, none, none, none⟩
      ⟨1, .open_, "cs", none, some "usd", 1, 10,
        ⟨1, 1, 10, false, false, "price_1", .custom "usd"⟩,
        none, none, none, []⟩ rfl).2.1 (by decide)
    simpa using h
  · have h := ((checkout_confirm_collects []
      ⟨1, .open_, "cs", none, some "usd", 1, 10,
        ⟨1, 1, 10, false, false, "price_1", .custom "usd"⟩,
        none, none, none, []⟩
      ⟨true, none, some 1500, some ⟨"FR"⟩, none, some "Jane", some "jane@x.io"⟩
      ⟨1, .open_, "cs", some 1500, some "usd", 1, 10,
        ⟨1, 1, 10, false, false, "price_1", .custom "usd"⟩,
        some "Jane", some "jane@x.io", some ⟨"FR"⟩, []⟩ rfl).1).mpr rfl
    simpa using h

/-- Claim C7 counterexample: an ordinary (non-public) update swapping to a
non-archived price of a *different* product of the *same* organization
does not succeed — it fails with the "Price does not belong to the
product." validation error, because the same-product check in
`CheckoutService.update` is unconditional, not restricted to the public
variant. -/
theorem checkout_update_cross_product_counterexample :
    CheckoutService.update
        [⟨2, 2, 10, false, false, "price_2", .fixed 500 "usd"⟩]
        ⟨1, .open_, "cs", some 1000, some "usd", 1, 10,
          ⟨1, 1, 10, false, false, "price_1", .fixed 1000 "usd"⟩,
          none, none, none, []⟩
        ⟨false, some 2, none, none, none, none, none⟩ =
      .error [⟨"product_price_id", "Price does not belong to the product."⟩] := by
  rfl

/-- Claim C7 (amended): a checkout update swapping the selected price
requires the new price to belong to the same organization *and* to the
same product, in the ordinary and the public variant alike: a price of
another organization fails as nonexistent, and a non-archived price of
another product of the same organization fails with the
"Price does not belong to the product." error. -/
theorem checkout_update_price_swap_checks (prices : List ProductPrice)
    (c : Checkout) (u : CheckoutUpdateReq) (pid : Nat) (price : ProductPrice)
    (hp : u.product_price_id = some pid)
    (hfind : prices.find? (fun p => p.id == pid) = some price) :
    (price.organization_id ≠ c.product_organization_id →
      CheckoutService.update prices c u =
        .error [⟨"product_price_id", "Price does not exist."⟩]) ∧
    (price.organization_id = c.product_organization_id →
      price.is_archived = false →
      price.product_id ≠ c.product_id →
      CheckoutService.update prices c u =
        .error [⟨"product_price_id", "Price does not belong to the product."⟩]) := by
  constructor
  · intro horg
    simp [CheckoutService.update, hp, hfind, horg]
  · intro horg harch hprod
    simp [CheckoutService.update, hp, hfind, horg, harch, hprod]

/-- Claim C7 witness for the amended statement: a same-organization,
different-product, non-archived price is rejected with the
same-product error even in the ordinary variant, and a price of another
organization is rejected as nonexistent. -/
theorem checkout_update_price_swap_checks_witness :
    CheckoutService.update
        [⟨3, 2, 10, false, false, "price_3", .fixed 500 "usd"⟩]
        ⟨1, .open_, "cs", some 1000, some "usd", 1, 10,
          ⟨1, 1, 10, false, false, "price_1", .fixed 1000 "usd"⟩,
          none, none, none, []⟩
        ⟨false, some 3, none, none, none, none, none⟩ =
      .error [⟨"product_price_id", "Price does not belong to the product."⟩] ∧
    CheckoutService.update
        [⟨4, 4, 99, false, false, "price_4", .fixed 500 "usd"⟩]
        ⟨1, .open_, "cs", some 1000, some "usd", 1, 10,
          ⟨1, 1, 10, false, false, "price_1", .fixed 1000 "usd"⟩,
          none, none, none, []⟩
        ⟨false, some 4, none, none, none, none, none⟩ =
      .error [⟨"product_price_id", "Price does not exist."⟩] := by
  constructor
  · exact (checkout_update_price_swap_checks
      [⟨3, 2, 10, false, false, "price_3", .fixed 500 "usd"⟩]
      ⟨1, .open_, "cs", some 1000, some "usd", 1, 10,
        ⟨1, 1, 10, false, false, "price_1", .fixed 1000 "usd"⟩,
        none, none, none, []⟩
      ⟨false, some 3, none, none, none, none, none⟩ 3
      ⟨3, 2, 10, false, false, "price_3", .fixed 500 "usd"⟩
      rfl rfl).2 rfl rfl (by decide)
  · exact (checkout_update_price_swap_checks
      [⟨4, 4, 99, false, false, "price_4", .fixed 500 "usd"⟩]
      ⟨1, .open_, "cs", some 1000, some "usd", 1, 10,
        ⟨1, 1, 10, false, false, "price_1", .fixed 1000 "usd"⟩,
        none, none, none, []⟩
      ⟨false, some 4, none, none, none, none, none⟩ 4
      ⟨4, 4, 99, false, false, "price_4", .fixed 500 "usd"⟩
      rfl rfl).1 (by decide)

/-- Claim C8: `CheckoutService.update` never inspects `checkout.status`,
so a checkout in the terminal `succeeded` status is *not* immutable: an
update call setting the customer name on a succeeded checkout is applied
and returned, where the spec requires terminal checkouts to reject
mutation. -/
theorem checkout_update_mutates_terminal :
    CheckoutService.update []
        ⟨1, .succeeded, "cs", some 1000, some "usd", 1, 10,
          ⟨1, 1, 10, false, false, "price_1", .fixed 1000 "usd"⟩,
          none, none, none, []⟩
        ⟨false, none, none, none, none, some "New name", none⟩ =
      .ok ⟨1, .succeeded, "cs", some 1000, some "usd", 1, 10,
            ⟨1, 1, 10, false, false, "price_1", .fixed 1000 "usd"⟩,
            some "New name", none, none, []⟩ := by
  rfl

/-! ## Webhook dispatcher (from `polar/webhook/service.py`) -/

/-- A registered delivery target; `format` is the configured payload
format selector. -/
structure WebhookEndpoint where
  id : Nat
  format : String
deriving DecidableEq, Repr

/-- One serialized payload instance bound to one endpoint. -/
structure WebhookEvent where
  webhook_endpoint_id : Nat
  payload : String
deriving DecidableEq, Repr

/-- The per-endpoint signals raised by `payload.get_payload`: an
unsupported target for this event, or an explicit skip. -/
inductive SerSignal
  | UnsupportedTarget (message : String)
  | SkipEvent
deriving DecidableEq, Repr

/-- An asynchronous job enqueued for a persisted webhook event. -/
structure EnqueuedJob where
  name : String
  webhook_event : WebhookEvent
deriving DecidableEq, Repr

/-- `WebhookService.send_payload`, translated from the source loop:
for each subscribed endpoint, serialize the payload (`get_payload` may
raise `UnsupportedTarget` or `SkipEvent`), persist a `WebhookEvent` row,
enqueue a `webhook_event.send` job, and on either signal continue with the
next endpoint. Returns the persisted events and the enqueued jobs. -/
def WebhookService.send_payload
    (get_payload : WebhookEndpoint → Except SerSignal String) :
    List WebhookEndpoint → List WebhookEvent × List EnqueuedJob
  | [] => ([], [])
  | e :: rest =>
    match get_payload e with
    | .ok payload_data =>
      let event_type : WebhookEvent :=
        { webhook_endpoint_id := e.id, payload := payload_data }
      let (events, jobs) := WebhookService.send_payload get_payload rest
      (event_type :: events,
       { name := "webhook_event.send", webhook_event := event_type } :: jobs)
    | .error _ => WebhookService.send_payload get_payload rest

/-- Claim C9: a per-endpoint `UnsupportedTarget` or `SkipEvent` signal is
swallowed and iteration continues — the persisted events are exactly the
serialization successes in order, one `webhook_event.send` job is enqueued
per persisted event, and every endpoint whose serialization succeeds gets
its event recorded regardless of failures on sibling endpoints. -/
theorem webhook_send_payload_continues
    (get_payload : WebhookEndpoint → Except SerSignal String)
    (endpoints : List WebhookEndpoint) :
    (WebhookService.send_payload get_payload endpoints).1 =
      endpoints.filterMap (fun e =>
        match get_payload e with
        | .ok d => some { webhook_endpoint_id := e.id, payload := d }
        | .error _ => none) ∧
    (WebhookService.send_payload get_payload endpoints).2 =
      (WebhookService.send_payload get_payload endpoints).1.map
        (fun ev => { name := "webhook_event.send", webhook_event := ev }) ∧
    ∀ e ∈ endpoints, ∀ d, get_payload e = .ok d →
      ({ webhook_endpoint_id := e.id, payload := d } : WebhookEvent) ∈
        (WebhookService.send_payload get_payload endpoints).1 := by
  induction endpoints with
  | nil => simp [WebhookService.send_payload]
  | cons e rest ih =>
    obtain ⟨ih1, ih2, ih3⟩ := ih
    cases hg : get_payload e with
    | ok d =>
      refine ⟨?_, ?_, ?_⟩
      · simp [WebhookService.send_payload, hg, ih1]
      · simp [WebhookService.send_payload, hg, ih2, ih1]
      · intro e' he' d' hd'
        rcases List.mem_cons.mp he' with rfl | hrest
        · rw [hg] at hd'
          cases hd'
          simp [WebhookService.send_payload, hg]
        · have := ih3 e' hrest d' hd'
          simp [WebhookService.send_payload, hg]
          right
          exact this
    | error s =>
      refine ⟨?_, ?_, ?_⟩
      · simp [WebhookService.send_payload, hg, ih1]
      · simp [WebhookService.send_payload, hg, ih2]
      · intro e' he' d' hd'
        rcases List.mem_cons.mp he' with rfl | hrest
        · rw [hg] at hd'
          cases hd'
        · have := ih3 e' hrest d' hd'
          simpa [WebhookService.send_payload, hg] using this

/-- Claim C9 witness: with endpoint 1 serializing fine and endpoint 2
raising `UnsupportedTarget`, endpoint 1's event is still persisted and its
delivery job enqueued, and the returned list holds exactly that event. -/
theorem webhook_send_payload_continues_witness :
    (WebhookService.send_payload
        (fun e => if e.id == 1 then .ok "payload_1"
                  else .error (.UnsupportedTarget "unsupported"))
        [⟨1, "raw"⟩, ⟨2, "raw"⟩]).1 = [⟨1, "payload_1"⟩] ∧
    (WebhookService.send_payload
        (fun e => if e.id == 1 then .ok "payload_1"
                  else .error (.UnsupportedTarget "unsupported"))
        [⟨1, "raw"⟩, ⟨2, "raw"⟩]).2 =
      [⟨"webhook_event.send", ⟨1, "payload_1"⟩⟩] ∧
    (⟨1, "payload_1"⟩ : WebhookEvent) ∈
      (WebhookService.send_payload
        (fun e => if e.id == 1 then .ok "payload_1"
                  else .error (.UnsupportedTarget "unsupported"))
        [⟨1, "raw"⟩, ⟨2, "raw"⟩]).1 := by
  have h := webhook_send_payload_continues
    (fun e => if e.id == 1 then .ok "payload_1"
              else .error (.UnsupportedTarget "unsupported"))
    [⟨1, "raw"⟩, ⟨2, "raw"⟩]
  refine ⟨?_, ?_, ?_⟩
  · rw [h.1]
    rfl
  · rw [h.2.1, h.1]
    rfl
  · exact h.2.2 ⟨1, "raw"⟩ (by simp) "payload_1" rfl

/-! ## Amount resolver and order reconciler -/

/-- Modelled from the spec: one line item of an external payment event,
with a price reference and its proration flag (`polar/order/service.py` is
not under `src/`; only its tests are). -/
structure InvoiceLine where
  price_id : String
  proration : Bool
deriving DecidableEq, Repr

/-- Modelled from the spec: the external payment event (Stripe invoice)
fields the reconciler reads: total, optional tax, amount paid, optional
charge reference, line items, the optional subscription-level metadata
price-id override, and the event metadata type tag
(`polar/order/service.py` is not under `src/`). -/
structure StripeInvoice where
  id : String
  total : Int
  tax : Option Int
  amount_paid : Int
  charge : Option String
  lines : List InvoiceLine
  subscription_metadata_price_id : Option String
  metadata_type : Option String
deriving DecidableEq, Repr

/-- The canonical price reference produced by amount resolution: either
the single billable line's price, or the subscription-level metadata
override. -/
inductive ResolvedPrice
  | fromLine (price_id : String)
  | fromOverride (price_id : String)
deriving DecidableEq, Repr

/-- The fatal reconciliation errors named by the tests
(`NotAnOrderInvoice`, `CantDetermineInvoicePrice`, `InvoiceWithoutCharge`). -/
inductive OrderError
  | NotAnOrderInvoice
  | CantDetermineInvoicePrice
  | InvoiceWithoutCharge
deriving DecidableEq, Repr

/-- Modelled from the spec (§4.1): filter out proration-flagged lines; if
exactly one non-proration line remains use it; if zero remain but the
subscription-level metadata override gives a price id use that; any other
count fails with the ambiguous-price error
(`polar/order/service.py` is not under `src/`). -/
def get_order_invoice_price (lines : List InvoiceLine)
    (override : Option String) : Except OrderError ResolvedPrice :=
  match lines.filter (fun l => !l.proration), override with
  | [l], _ => .ok (.fromLine l.price_id)
  | [], some price_id => .ok (.fromOverride price_id)
  | _, _ => .error .CantDetermineInvoicePrice

/-- The settled financial record created by reconciliation, reduced to the
fields the claims speak about. -/
structure Order where
  stripe_invoice_id : String
  product_price : ResolvedPrice
  amount : Int
deriving DecidableEq, Repr

/-- Modelled from the spec (§4.3 steps 1–3, 8): reject non-order events,
resolve the price via the amount resolver, require a charge reference
except on the zero-amount-paid path, and create the order with
net amount = total − tax, tax defaulting to 0 when absent
(`polar/order/service.py` is not under `src/`). -/
def create_order_from_stripe (invoice : StripeInvoice) :
    Except OrderError Order :=
  if invoice.metadata_type == some "pledge" then
    .error .NotAnOrderInvoice
  else
    match get_order_invoice_price invoice.lines
        invoice.subscription_metadata_price_id with
    | .error e => .error e
    | .ok price =>
      if invoice.charge == none && invoice.amount_paid != 0 then
        .error .InvoiceWithoutCharge
      else
        .ok { stripe_invoice_id := invoice.id,
              product_price := price,
              amount := invoice.total - invoice.tax.getD 0 }

/-- Claim C1: for an order-type payment event whose line items hold
exactly one non-proration line (prorations filtered out first), amount
resolution succeeds and selects that line's price, and the created
order's amount is the reported total minus the reported tax, with tax
treated as 0 when absent. -/
theorem order_single_line_amount (invoice : StripeInvoice) (l : InvoiceLine)
    (hl : invoice.lines.filter (fun x => !x.proration) = [l])
    (hpledge : invoice.metadata_type ≠ some "pledge")
    (hcharge : invoice.charge.isSome) :
    get_order_invoice_price invoice.lines
        invoice.subscription_metadata_price_id =
      .ok (.fromLine l.price_id) ∧
    create_order_from_stripe invoice =
      .ok { stripe_invoice_id := invoice.id,
            product_price := .fromLine l.price_id,
            amount := invoice.total - invoice.tax.getD 0 } := by
  have hres : get_order_invoice_price invoice.lines
      invoice.subscription_metadata_price_id = .ok (.fromLine l.price_id) := by
    simp [get_order_invoice_price, hl]
  refine ⟨hres, ?_⟩
  obtain ⟨c, hc⟩ := Option.isSome_iff_exists.mp hcharge
  simp [create_order_from_stripe, hres, hpledge, hc]

/-- Claim C1 witness: the fixed-price scenario of the tests — one
non-proration line beside two prorations, total 12000, tax 2000 — yields
an order of amount 10000 on that line's price; with tax absent the full
total 12000 is recorded. -/
theorem order_single_line_amount_witness :
    create_order_from_stripe
        ⟨"INVOICE_ID", 12000, some 2000, 12000, some "CHARGE_ID",
          [⟨"PRICE_1", true⟩, ⟨"PRICE_2", true⟩, ⟨"PRICE_ID", false⟩],
          none, none⟩ =
      .ok ⟨"INVOICE_ID", .fromLine "PRICE_ID", 10000⟩ ∧
    create_order_from_stripe
        ⟨"INVOICE_ID", 12000, none, 12000, some "CHARGE_ID",
          [⟨"PRICE_ID", false⟩], none, none⟩ =
      .ok ⟨"INVOICE_ID", .fromLine "PRICE_ID", 12000⟩ := by
  constructor
  · have h := (order_single_line_amount
      ⟨"INVOICE_ID", 12000, some 2000, 12000, some "CHARGE_ID",
        [⟨"PRICE_1", true⟩, ⟨"PRICE_2", true⟩, ⟨"PRICE_ID", false⟩],
        none, none⟩
      ⟨"PRICE_ID", false⟩ rfl (by decide) rfl).2
    simpa using h
  · have h := (order_single_line_amount
      ⟨"INVOICE_ID", 12000, none, 12000, some "CHARGE_ID",
        [⟨"PRICE_ID", false⟩], none, none⟩
      ⟨"PRICE_ID", false⟩ rfl (by decide) rfl).2
    simpa using h

/-- Claim C2: with zero or two-or-more non-proration lines and no
subscription-level override, reconciliation fails with the
ambiguous-price error and creates no order; with zero non-proration lines
but an override price id, resolution succeeds on that price instead. -/
theorem order_ambiguous_price (invoice : StripeInvoice) :
    (invoice.metadata_type ≠ some "pledge" →
      invoice.subscription_metadata_price_id = none →
      (invoice.lines.filter (fun x => !x.proration) = [] ∨
        2 ≤ (invoice.lines.filter (fun x => !x.proration)).length) →
      create_order_from_stripe invoice = .error .CantDetermineInvoicePrice) ∧
    (∀ price_id, invoice.subscription_metadata_price_id = some price_id →
      invoice.lines.filter (fun x => !x.proration) = [] →
      get_order_invoice_price invoice.lines
          invoice.subscription_metadata_price_id =
        .ok (.fromOverride price_id)) := by
  constructor
  · intro hpledge hover hcount
    have hres : get_order_invoice_price invoice.lines
        invoice.subscription_metadata_price_id =
        .error .CantDetermineInvoicePrice := by
      rcases hcount with hnil | hlen
      · simp [get_order_invoice_price, hnil, hover]
      · cases hfl : invoice.lines.filter (fun x => !x.proration) with
        | nil =>
          rw [hfl] at hlen
          simp at hlen
        | cons a t =>
          cases t with
          | nil =>
            rw [hfl] at hlen
            simp at hlen
          | cons b t2 => simp [get_order_invoice_price, hfl]
    simp [create_order_from_stripe, hres, hpledge]
  · intro price_id hover hnil
    simp [get_order_invoice_price, hnil, hover]

/-- Claim C2 witness: an event with two non-proration lines and no
override fails as ambiguous and creates no order, as does one with no
lines at all; an event with only proration lines but a subscription-level
override resolves to the override price. -/
theorem order_ambiguous_price_witness :
    create_order_from_stripe
        ⟨"INVOICE_ID", 12000, some 2000, 12000, some "CHARGE_ID",
          [⟨"PRICE_1", false⟩, ⟨"PRICE_2", false⟩], none, none⟩ =
      .error .CantDetermineInvoicePrice ∧
    create_order_from_stripe
        ⟨"INVOICE_ID", 12000, some 2000, 12000, some "CHARGE_ID",
          [], none, none⟩ =
      .error .CantDetermineInvoicePrice ∧
    get_order_invoice_price
        [⟨"PRICE_1", true⟩, ⟨"PRICE_2", true⟩] (some "OVERRIDE_PRICE") =
      .ok (.fromOverride "OVERRIDE_PRICE") := by
  refine ⟨?_, ?_, ?_⟩
  · exact (order_ambiguous_price
      ⟨"INVOICE_ID", 12000, some 2000, 12000, some "CHARGE_ID",
        [⟨"PRICE_1", false⟩, ⟨"PRICE_2", false⟩], none, none⟩).1
      (by decide) rfl (Or.inr (by decide))
  · exact (order_ambiguous_price
      ⟨"INVOICE_ID", 12000, some 2000, 12000, some "CHARGE_ID",
        [], none, none⟩).1
      (by decide) rfl (Or.inl rfl)
  · exact (order_ambiguous_price
      ⟨"INVOICE_ID", 12000, some 2000, 12000, some "CHARGE_ID",
        [⟨"PRICE_1", true⟩, ⟨"PRICE_2", true⟩], some "OVERRIDE_PRICE", none⟩).2
      "OVERRIDE_PRICE" rfl rfl
